import Mathlib

/-!
Verification of the CLI glue script `main.py`.

The script parses one positional prompt argument, checks that the
`OPENAI_API_KEY` environment variable is present, builds a langchain agent,
invokes it once on the prompt inside a five-branch `try/except`, and prints
two lines (`response <value>` and `error_msg <value>`).

Shallow embedding decisions:
* The delegated agent call `chain.run(prompt)` is opaque to the repository;
  it is modelled as a function from the prompt to an `AgentOutcome`, which
  either returns a string or raises one of the Python exceptions the script
  distinguishes.
* Python exceptions are modelled by `PyExc`. The four specifically caught
  classes (`AuthenticationError`, `RateLimitError`, `ValueError`,
  `InvalidRequestError`) are pairwise unrelated in the Python class
  hierarchy, and all of them, as well as every other exception the bare
  `except Exception` clause can see, subclass `Exception`; the
  `otherException` constructor stands for any `Exception` instance outside
  the four named classes.
* The `try/except` ladder is modelled faithfully as an ordered handler list
  (`excHandlers`) scanned by `firstMatch`; an exception no clause matches
  propagates as `Except.error`, so totality of `run_chain` is a theorem,
  not a definitional accident.
* Side effects are recorded as an `Event` trace: client construction,
  tool loading, the single agent call, and each `print` call (one `Event.printed`
  per Python `print` invocation, with the space `sep` applied).
* `datetime.datetime.now()` is modelled by an explicit `now : String`
  parameter threaded into `run_chain`, since only the string form of the
  timestamp is consumed.
* The process environment is modelled by the list of variable names that
  are set, since the script only tests membership.
-/

/-- Python exception values the script can observe, keyed by the class the
`except` ladder distinguishes; the payload is `str(e)`. -/
inductive PyExc where
  | authenticationError : String → PyExc
  | rateLimitError : String → PyExc
  | valueError : String → PyExc
  | invalidRequestError : String → PyExc
  | otherException : String → PyExc
deriving DecidableEq, Repr

/-- Result of one delegated call `chain.run(prompt)`: either a returned
string or a raised exception. -/
inductive AgentOutcome where
  | returns : String → AgentOutcome
  | raises : PyExc → AgentOutcome
deriving DecidableEq, Repr

/-- Observable side effects of the script, in program order. -/
inductive Event where
  | constructedClient : Event
  | loadedTools : Event
  | constructedMemory : Event
  | constructedAgent : Event
  | agentCall : String → Event
  | printed : String → Event
deriving DecidableEq, Repr

/-- Failure modes that escape the script uncaught (a nonzero process exit). -/
inductive ScriptFailure where
  | missingKey : String → ScriptFailure
  | uncaught : PyExc → ScriptFailure
deriving DecidableEq, Repr

/-- `BUG_FOUND_MSG` constant from `main.py` line 14. -/
def BUG_FOUND_MSG : String := "Congratulations, you've found a bug in this application!"

/-- `AUTH_ERR_MSG` constant from `main.py` line 15 (note the trailing space). -/
def AUTH_ERR_MSG : String := "Please paste your OpenAI key from openai.com to use this application. "

/-- `str(e)` for a modelled exception value. -/
def excStr : PyExc → String
  | PyExc.authenticationError s => s
  | PyExc.rateLimitError s => s
  | PyExc.valueError s => s
  | PyExc.invalidRequestError s => s
  | PyExc.otherException s => s

/-- Membership test for the `except AuthenticationError` clause. -/
def isAuthenticationError : PyExc → Bool
  | PyExc.authenticationError _ => true
  | _ => false

/-- Membership test for the `except RateLimitError` clause. -/
def isRateLimitError : PyExc → Bool
  | PyExc.rateLimitError _ => true
  | _ => false

/-- Membership test for the `except ValueError` clause. -/
def isValueError : PyExc → Bool
  | PyExc.valueError _ => true
  | _ => false

/-- Membership test for the `except InvalidRequestError` clause. -/
def isInvalidRequestError : PyExc → Bool
  | PyExc.invalidRequestError _ => true
  | _ => false

/-- Membership test for the bare `except Exception` clause: every modelled
exception is an instance of `Exception`. -/
def isException : PyExc → Bool
  | _ => true

/-- Python `except`-clause semantics: scan the clauses in source order and
run the body of the first whose class matches the raised exception; if none
matches, the exception propagates. -/
def firstMatch {α : Type} : List ((PyExc → Bool) × (PyExc → α)) → PyExc → Except PyExc α
  | [], e => Except.error e
  | (c, h) :: rest, e => if c e then Except.ok (h e) else firstMatch rest e

/-- The five `except` clauses of `run_chain` (`main.py` lines 72-82), in
source order. Each handler yields the `(response, error_msg, prints)` state
after it runs: every handler leaves `response` at its initial `""` and sets
`error_msg`; only the `AuthenticationError` handler also prints. -/
def excHandlers (now : String) : List ((PyExc → Bool) × (PyExc → String × String × List Event)) :=
  [ (isAuthenticationError, fun e =>
      ("", AUTH_ERR_MSG ++ now ++ ". " ++ excStr e,
        [Event.printed ("error_msg " ++ (AUTH_ERR_MSG ++ now ++ ". " ++ excStr e))])),
    (isRateLimitError, fun e => ("", "\n\nRateLimitError: " ++ excStr e, [])),
    (isValueError, fun e => ("", "\n\nValueError: " ++ excStr e, [])),
    (isInvalidRequestError, fun e => ("", "\n\nInvalidRequestError: " ++ excStr e, [])),
    (isException, fun e => ("", "\n\n" ++ BUG_FOUND_MSG ++ ":\n\n" ++ excStr e, [])) ]

/-- `run_chain` (`main.py` lines 67-84). The agent `chain` is called once on
`prompt`; on success the returned string becomes `response` and `error_msg`
stays empty; on an exception the handler ladder runs. The result is the pair
of strings `run_chain` returns together with the event trace (the single
agent call plus any prints done inside a handler); an exception caught by no
clause would propagate as `Except.error`. -/
def run_chain (chain : String → AgentOutcome) (prompt now : String) :
    Except PyExc (String × String × List Event) :=
  match chain prompt with
  | AgentOutcome.returns s => Except.ok (s, "", [Event.agentCall prompt])
  | AgentOutcome.raises e =>
    (firstMatch (excHandlers now) e).map
      (fun r => (r.1, r.2.1, Event.agentCall prompt :: r.2.2))

/-- `init_langchain_llm` (`main.py` lines 34-47): if `OPENAI_API_KEY` is not
among the set environment variables, raise
`Exception("please set OPENAI_API_KEY environment variable")` before the
`OpenAI(...)` client is constructed; otherwise construct the client. The
returned trace records what happened before returning. -/
def init_langchain_llm (env : List String) : Except String (List Event) :=
  if "OPENAI_API_KEY" ∈ env then Except.ok [Event.constructedClient]
  else Except.error "please set OPENAI_API_KEY environment variable"

/-- `init_langchain` (`main.py` lines 49-65): initialise the LLM, then load
the wolfram-alpha tool, the conversation memory and the agent (all delegated
to the framework and modelled as opaque successful constructions). -/
def init_langchain (env : List String) : Except String (List Event) :=
  (init_langchain_llm env).map
    (fun evs => evs ++ [Event.loadedTools, Event.constructedMemory, Event.constructedAgent])

/-- The module-level script body after argument parsing (`main.py` lines
87-93): build the chain, run it on the prompt, then print the `response`
and `error_msg` lines. An uncaught exception aborts the run with no further
events. -/
def runScript (env : List String) (chain : String → AgentOutcome) (now prompt : String) :
    Except ScriptFailure (List Event) :=
  match init_langchain env with
  | Except.error msg => Except.error (ScriptFailure.missingKey msg)
  | Except.ok initEvs =>
    match run_chain chain prompt now with
    | Except.error e => Except.error (ScriptFailure.uncaught e)
    | Except.ok r =>
      Except.ok (initEvs ++ r.2.2 ++
        [Event.printed ("response " ++ r.1), Event.printed ("error_msg " ++ r.2.1)])

/-- Lines written to standard output, in order, extracted from a trace. -/
def printedLines : List Event → List String
  | [] => []
  | Event.printed s :: rest => s :: printedLines rest
  | _ :: rest => printedLines rest

/-- Number of delegated agent calls in a trace. -/
def agentCallCount : List Event → Nat
  | [] => 0
  | Event.agentCall _ :: rest => agentCallCount rest + 1
  | _ :: rest => agentCallCount rest

/-- `needle` occurs contiguously inside `hay`. -/
def containsSubstring (hay needle : String) : Prop :=
  ∃ a b : List Char, hay.data = a ++ needle.data ++ b

/-- Splitting lemma used to exhibit substrings of concatenations. -/
theorem containsSubstring_of_append (pre : String) (needle : String) (suf : String)
    (s : String) (h : s = pre ++ needle ++ suf) : containsSubstring s needle := by
  refine ⟨pre.data, suf.data, ?_⟩
  subst h
  simp [String.data_append]

/-- C1: if `OPENAI_API_KEY` is absent from the environment, the script run
fails with the fatal message "please set OPENAI_API_KEY environment
variable"; the failing run carries no event trace, so no language-model
client is constructed, no agent (network) call is made, and no response
line is printed. -/
theorem missing_key_fails_fast (env : List String) (chain : String → AgentOutcome)
    (now prompt : String) (h : "OPENAI_API_KEY" ∉ env) :
    runScript env chain now prompt =
      Except.error (ScriptFailure.missingKey "please set OPENAI_API_KEY environment variable")
    ∧ ∀ evs : List Event, runScript env chain now prompt ≠ Except.ok evs := by
  have hrun : runScript env chain now prompt =
      Except.error (ScriptFailure.missingKey "please set OPENAI_API_KEY environment variable") := by
    simp [runScript, init_langchain, init_langchain_llm, h, Except.map]
  exact ⟨hrun, fun evs hok => by rw [hrun] at hok; cases hok⟩

/-- Witness for C1 at the empty environment. -/
theorem missing_key_fails_fast_witness :
    runScript [] (fun _ => AgentOutcome.returns "ok") "t" "p" =
      Except.error (ScriptFailure.missingKey "please set OPENAI_API_KEY environment variable") :=
  (missing_key_fails_fast [] (fun _ => AgentOutcome.returns "ok") "t" "p" (by decide)).1

/-- C2: the `except` ladder maps each of the five exception categories, in
source order, to its human-readable error string: an `AuthenticationError`
to the auth prefix plus timestamp plus `str(e)`, a `RateLimitError` to a
message containing the literal substring "RateLimitError", a `ValueError`
and an `InvalidRequestError` to their labelled messages, and any other
exception to a message containing the bug-found marker `BUG_FOUND_MSG`. -/
theorem run_chain_error_taxonomy (chain : String → AgentOutcome) (prompt now s : String) :
    (chain prompt = AgentOutcome.raises (PyExc.authenticationError s) →
      run_chain chain prompt now = Except.ok ("", AUTH_ERR_MSG ++ now ++ ". " ++ s,
        [Event.agentCall prompt,
         Event.printed ("error_msg " ++ (AUTH_ERR_MSG ++ now ++ ". " ++ s))]))
    ∧ (chain prompt = AgentOutcome.raises (PyExc.rateLimitError s) →
      run_chain chain prompt now =
        Except.ok ("", "\n\nRateLimitError: " ++ s, [Event.agentCall prompt])
      ∧ containsSubstring ("\n\nRateLimitError: " ++ s) "RateLimitError")
    ∧ (chain prompt = AgentOutcome.raises (PyExc.valueError s) →
      run_chain chain prompt now =
        Except.ok ("", "\n\nValueError: " ++ s, [Event.agentCall prompt]))
    ∧ (chain prompt = AgentOutcome.raises (PyExc.invalidRequestError s) →
      run_chain chain prompt now =
        Except.ok ("", "\n\nInvalidRequestError: " ++ s, [Event.agentCall prompt]))
    ∧ (chain prompt = AgentOutcome.raises (PyExc.otherException s) →
      run_chain chain prompt now =
        Except.ok ("", "\n\n" ++ BUG_FOUND_MSG ++ ":\n\n" ++ s, [Event.agentCall prompt])
      ∧ containsSubstring ("\n\n" ++ BUG_FOUND_MSG ++ ":\n\n" ++ s) BUG_FOUND_MSG) := by
  refine ⟨fun h => ?_, fun h => ⟨?_, ?_⟩, fun h => ?_, fun h => ?_, fun h => ⟨?_, ?_⟩⟩ <;>
    try simp [run_chain, *, firstMatch, excHandlers, isAuthenticationError, isRateLimitError,
      isValueError, isInvalidRequestError, isException, excStr, Except.map]
  · exact containsSubstring_of_append "\n\n" "RateLimitError" (": " ++ s) _ rfl
  · exact containsSubstring_of_append "\n\n" BUG_FOUND_MSG (":\n\n" ++ s) _ rfl

/-- Witness for C2: each of the five branches applied at a concrete agent. -/
theorem run_chain_error_taxonomy_witness :
    run_chain (fun _ => AgentOutcome.raises (PyExc.authenticationError "k")) "p" "t" =
      Except.ok ("", AUTH_ERR_MSG ++ "t" ++ ". " ++ "k",
        [Event.agentCall "p", Event.printed ("error_msg " ++ (AUTH_ERR_MSG ++ "t" ++ ". " ++ "k"))])
    ∧ (run_chain (fun _ => AgentOutcome.raises (PyExc.rateLimitError "r")) "p" "t" =
        Except.ok ("", "\n\nRateLimitError: " ++ "r", [Event.agentCall "p"])
      ∧ containsSubstring ("\n\nRateLimitError: " ++ "r") "RateLimitError")
    ∧ (run_chain (fun _ => AgentOutcome.raises (PyExc.valueError "v")) "p" "t" =
        Except.ok ("", "\n\nValueError: " ++ "v", [Event.agentCall "p"]))
    ∧ (run_chain (fun _ => AgentOutcome.raises (PyExc.invalidRequestError "i")) "p" "t" =
        Except.ok ("", "\n\nInvalidRequestError: " ++ "i", [Event.agentCall "p"]))
    ∧ (run_chain (fun _ => AgentOutcome.raises (PyExc.otherException "o")) "p" "t" =
        Except.ok ("", "\n\n" ++ BUG_FOUND_MSG ++ ":\n\n" ++ "o", [Event.agentCall "p"])
      ∧ containsSubstring ("\n\n" ++ BUG_FOUND_MSG ++ ":\n\n" ++ "o") BUG_FOUND_MSG) :=
  ⟨(run_chain_error_taxonomy (fun _ => AgentOutcome.raises (PyExc.authenticationError "k"))
      "p" "t" "k").1 rfl,
   (run_chain_error_taxonomy (fun _ => AgentOutcome.raises (PyExc.rateLimitError "r"))
      "p" "t" "r").2.1 rfl,
   (run_chain_error_taxonomy (fun _ => AgentOutcome.raises (PyExc.valueError "v"))
      "p" "t" "v").2.2.1 rfl,
   (run_chain_error_taxonomy (fun _ => AgentOutcome.raises (PyExc.invalidRequestError "i"))
      "p" "t" "i").2.2.2.1 rfl,
   (run_chain_error_taxonomy (fun _ => AgentOutcome.raises (PyExc.otherException "o"))
      "p" "t" "o").2.2.2.2 rfl⟩

/-- C3: when the delegated call returns a string without raising, `run_chain`
returns exactly that string as the response and the empty string as the
error message. -/
theorem run_chain_success (chain : String → AgentOutcome) (prompt now s : String)
    (h : chain prompt = AgentOutcome.returns s) :
    run_chain chain prompt now = Except.ok (s, "", [Event.agentCall prompt]) := by
  simp [run_chain, h]

/-- Witness for C3 at a concrete successful agent. -/
theorem run_chain_success_witness :
    run_chain (fun _ => AgentOutcome.returns "hello") "p" "t" =
      Except.ok ("hello", "", [Event.agentCall "p"]) :=
  run_chain_success (fun _ => AgentOutcome.returns "hello") "p" "t" "hello" rfl

/-- C4: when the delegated call raises, the returned response is the empty
string; when it succeeds, the returned error message is the empty string. -/
theorem run_chain_empty_sides (chain : String → AgentOutcome) (prompt now : String) :
    (∀ e : PyExc, chain prompt = AgentOutcome.raises e →
      ∃ em evs, run_chain chain prompt now = Except.ok ("", em, evs))
    ∧ (∀ s : String, chain prompt = AgentOutcome.returns s →
      ∃ evs, run_chain chain prompt now = Except.ok (s, "", evs)) := by
  constructor
  · intro e h
    cases e with
    | authenticationError s =>
      exact ⟨AUTH_ERR_MSG ++ now ++ ". " ++ s,
        [Event.agentCall prompt, Event.printed ("error_msg " ++ (AUTH_ERR_MSG ++ now ++ ". " ++ s))],
        by simp [run_chain, h, firstMatch, excHandlers, isAuthenticationError, excStr, Except.map]⟩
    | rateLimitError s =>
      exact ⟨"\n\nRateLimitError: " ++ s, [Event.agentCall prompt],
        by simp [run_chain, h, firstMatch, excHandlers, isAuthenticationError, isRateLimitError,
          excStr, Except.map]⟩
    | valueError s =>
      exact ⟨"\n\nValueError: " ++ s, [Event.agentCall prompt],
        by simp [run_chain, h, firstMatch, excHandlers, isAuthenticationError, isRateLimitError,
          isValueError, excStr, Except.map]⟩
    | invalidRequestError s =>
      exact ⟨"\n\nInvalidRequestError: " ++ s, [Event.agentCall prompt],
        by simp [run_chain, h, firstMatch, excHandlers, isAuthenticationError, isRateLimitError,
          isValueError, isInvalidRequestError, excStr, Except.map]⟩
    | otherException s =>
      exact ⟨"\n\n" ++ BUG_FOUND_MSG ++ ":\n\n" ++ s, [Event.agentCall prompt],
        by simp [run_chain, h, firstMatch, excHandlers, isAuthenticationError, isRateLimitError,
          isValueError, isInvalidRequestError, isException, excStr, Except.map]⟩
  · intro s h
    exact ⟨[Event.agentCall prompt], by simp [run_chain, h]⟩

/-- Witness for C4: a raising agent gives an empty response, a returning
agent gives an empty error message. -/
theorem run_chain_empty_sides_witness :
    (∃ em evs, run_chain (fun _ => AgentOutcome.raises (PyExc.valueError "v")) "p" "t" =
      Except.ok ("", em, evs))
    ∧ (∃ evs, run_chain (fun _ => AgentOutcome.returns "ok") "p" "t" =
      Except.ok ("ok", "", evs)) :=
  ⟨(run_chain_empty_sides (fun _ => AgentOutcome.raises (PyExc.valueError "v")) "p" "t").1
      (PyExc.valueError "v") rfl,
   (run_chain_empty_sides (fun _ => AgentOutcome.returns "ok") "p" "t").2 "ok" rfl⟩

/-- Branch equation for `run_chain` on a successful delegated call. -/
theorem run_chain_returns_eq (chain : String → AgentOutcome) (prompt now s : String)
    (h : chain prompt = AgentOutcome.returns s) :
    run_chain chain prompt now = Except.ok (s, "", [Event.agentCall prompt]) := by
  simp [run_chain, h]

/-- Branch equation for `run_chain` on an `AuthenticationError`. -/
theorem run_chain_auth_eq (chain : String → AgentOutcome) (prompt now s : String)
    (h : chain prompt = AgentOutcome.raises (PyExc.authenticationError s)) :
    run_chain chain prompt now = Except.ok ("", AUTH_ERR_MSG ++ now ++ ". " ++ s,
      [Event.agentCall prompt,
       Event.printed ("error_msg " ++ (AUTH_ERR_MSG ++ now ++ ". " ++ s))]) := by
  simp [run_chain, h, firstMatch, excHandlers, isAuthenticationError, excStr, Except.map]

/-- Branch equation for `run_chain` on a `RateLimitError`. -/
theorem run_chain_rate_eq (chain : String → AgentOutcome) (prompt now s : String)
    (h : chain prompt = AgentOutcome.raises (PyExc.rateLimitError s)) :
    run_chain chain prompt now =
      Except.ok ("", "\n\nRateLimitError: " ++ s, [Event.agentCall prompt]) := by
  simp [run_chain, h, firstMatch, excHandlers, isAuthenticationError, isRateLimitError,
    excStr, Except.map]

/-- Branch equation for `run_chain` on a `ValueError`. -/
theorem run_chain_value_eq (chain : String → AgentOutcome) (prompt now s : String)
    (h : chain prompt = AgentOutcome.raises (PyExc.valueError s)) :
    run_chain chain prompt now =
      Except.ok ("", "\n\nValueError: " ++ s, [Event.agentCall prompt]) := by
  simp [run_chain, h, firstMatch, excHandlers, isAuthenticationError, isRateLimitError,
    isValueError, excStr, Except.map]

/-- Branch equation for `run_chain` on an `InvalidRequestError`. -/
theorem run_chain_invreq_eq (chain : String → AgentOutcome) (prompt now s : String)
    (h : chain prompt = AgentOutcome.raises (PyExc.invalidRequestError s)) :
    run_chain chain prompt now =
      Except.ok ("", "\n\nInvalidRequestError: " ++ s, [Event.agentCall prompt]) := by
  simp [run_chain, h, firstMatch, excHandlers, isAuthenticationError, isRateLimitError,
    isValueError, isInvalidRequestError, excStr, Except.map]

/-- Branch equation for `run_chain` on any other exception. -/
theorem run_chain_other_eq (chain : String → AgentOutcome) (prompt now s : String)
    (h : chain prompt = AgentOutcome.raises (PyExc.otherException s)) :
    run_chain chain prompt now =
      Except.ok ("", "\n\n" ++ BUG_FOUND_MSG ++ ":\n\n" ++ s, [Event.agentCall prompt]) := by
  simp [run_chain, h, firstMatch, excHandlers, isAuthenticationError, isRateLimitError,
    isValueError, isInvalidRequestError, isException, excStr, Except.map]

/-- With the key present, the script trace is the construction events, the
`run_chain` events, and the two final print events. -/
theorem runScript_eq (env : List String) (chain : String → AgentOutcome)
    (now prompt : String) (h : "OPENAI_API_KEY" ∈ env) (r em : String) (evs : List Event)
    (hr : run_chain chain prompt now = Except.ok (r, em, evs)) :
    runScript env chain now prompt = Except.ok
      ([Event.constructedClient, Event.loadedTools, Event.constructedMemory,
        Event.constructedAgent] ++ evs ++
       [Event.printed ("response " ++ r), Event.printed ("error_msg " ++ em)]) := by
  simp [runScript, init_langchain, init_langchain_llm, h, hr, Except.map]

/-- C5 counterexample: with the key set and an agent raising
`AuthenticationError`, the script prints three lines, not two — the
`AuthenticationError` handler prints an extra `error_msg` line (`main.py`
line 74) before the final `response`/`error_msg` pair. -/
theorem two_printed_lines_counterexample :
    (runScript ["OPENAI_API_KEY"]
        (fun _ => AgentOutcome.raises (PyExc.authenticationError "bad")) "t0" "p").map
      (fun evs => (printedLines evs).length) = Except.ok 3
    ∧ (runScript ["OPENAI_API_KEY"]
        (fun _ => AgentOutcome.raises (PyExc.authenticationError "bad")) "t0" "p").map
      (fun evs => (printedLines evs).length) ≠ Except.ok 2 := by
  have h3 : (runScript ["OPENAI_API_KEY"]
      (fun _ => AgentOutcome.raises (PyExc.authenticationError "bad")) "t0" "p").map
      (fun evs => (printedLines evs).length) = Except.ok 3 := by rfl
  refine ⟨h3, fun h2 => ?_⟩
  rw [h3] at h2
  exact absurd (Except.ok.inj h2) (by decide)

/-- C5 amended: with the key present the run always ends with the two lines
`response <value>` and `error_msg <value>`, and these are the only printed
lines except when the agent raises `AuthenticationError`, in which case the
handler prints one additional `error_msg` line first (three lines total). -/
theorem printed_lines_structure (env : List String) (chain : String → AgentOutcome)
    (now prompt : String) (h : "OPENAI_API_KEY" ∈ env) :
    ∃ evs, runScript env chain now prompt = Except.ok evs
      ∧ ((∃ s, chain prompt = AgentOutcome.raises (PyExc.authenticationError s)) →
          ∃ em, printedLines evs = ["error_msg " ++ em, "response ", "error_msg " ++ em])
      ∧ ((∀ s, chain prompt ≠ AgentOutcome.raises (PyExc.authenticationError s)) →
          ∃ r em, printedLines evs = ["response " ++ r, "error_msg " ++ em]) := by
  cases hc : chain prompt with
  | returns s =>
    refine ⟨_, runScript_eq env chain now prompt h _ _ _ (run_chain_returns_eq chain prompt now s hc), ?_, ?_⟩
    · rintro ⟨s', hs'⟩
      cases hs'
    · intro _
      exact ⟨s, "", by simp [printedLines]⟩
  | raises e =>
    cases e with
    | authenticationError s =>
      refine ⟨_, runScript_eq env chain now prompt h _ _ _ (run_chain_auth_eq chain prompt now s hc), ?_, ?_⟩
      · intro _
        exact ⟨AUTH_ERR_MSG ++ now ++ ". " ++ s, by simp [printedLines]⟩
      · intro hno
        exact absurd rfl (hno s)
    | rateLimitError s =>
      refine ⟨_, runScript_eq env chain now prompt h _ _ _ (run_chain_rate_eq chain prompt now s hc), ?_, ?_⟩
      · rintro ⟨s', hs'⟩
        cases hs'
      · intro _
        exact ⟨"", "\n\nRateLimitError: " ++ s, by simp [printedLines]⟩
    | valueError s =>
      refine ⟨_, runScript_eq env chain now prompt h _ _ _ (run_chain_value_eq chain prompt now s hc), ?_, ?_⟩
      · rintro ⟨s', hs'⟩
        cases hs'
      · intro _
        exact ⟨"", "\n\nValueError: " ++ s, by simp [printedLines]⟩
    | invalidRequestError s =>
      refine ⟨_, runScript_eq env chain now prompt h _ _ _ (run_chain_invreq_eq chain prompt now s hc), ?_, ?_⟩
      · rintro ⟨s', hs'⟩
        cases hs'
      · intro _
        exact ⟨"", "\n\nInvalidRequestError: " ++ s, by simp [printedLines]⟩
    | otherException s =>
      refine ⟨_, runScript_eq env chain now prompt h _ _ _ (run_chain_other_eq chain prompt now s hc), ?_, ?_⟩
      · rintro ⟨s', hs'⟩
        cases hs'
      · intro _
        exact ⟨"", "\n\n" ++ BUG_FOUND_MSG ++ ":\n\n" ++ s, by simp [printedLines]⟩

/-- Witness for the amended C5 at a concrete successful run. -/
theorem printed_lines_structure_witness :
    ∃ evs, runScript ["OPENAI_API_KEY"] (fun _ => AgentOutcome.returns "ok") "t" "p" =
        Except.ok evs
      ∧ ((∃ s, (fun _ => AgentOutcome.returns "ok") "p" =
            AgentOutcome.raises (PyExc.authenticationError s)) →
          ∃ em, printedLines evs = ["error_msg " ++ em, "response ", "error_msg " ++ em])
      ∧ ((∀ s, (fun _ => AgentOutcome.returns "ok") "p" ≠
            AgentOutcome.raises (PyExc.authenticationError s)) →
          ∃ r em, printedLines evs = ["response " ++ r, "error_msg " ++ em]) :=
  printed_lines_structure ["OPENAI_API_KEY"] (fun _ => AgentOutcome.returns "ok") "t" "p"
    (by decide)

/-- C6: on an `AuthenticationError` from the delegated call, the error
message is exactly the fixed authentication prefix `AUTH_ERR_MSG` followed
immediately by the current timestamp, then `". "` and `str(e)`. -/
theorem auth_error_prefix_then_timestamp (chain : String → AgentOutcome)
    (prompt now s : String)
    (h : chain prompt = AgentOutcome.raises (PyExc.authenticationError s)) :
    ∃ evs, run_chain chain prompt now =
        Except.ok ("", AUTH_ERR_MSG ++ (now ++ (". " ++ s)), evs) := by
  refine ⟨[Event.agentCall prompt,
    Event.printed ("error_msg " ++ (AUTH_ERR_MSG ++ now ++ ". " ++ s))], ?_⟩
  rw [run_chain_auth_eq chain prompt now s h]
  simp [String.append_assoc]

/-- Witness for C6 at a concrete authentication failure. -/
theorem auth_error_prefix_then_timestamp_witness :
    ∃ evs, run_chain (fun _ => AgentOutcome.raises (PyExc.authenticationError "denied"))
        "p" "2023-02-27 10:00:00" =
      Except.ok ("", AUTH_ERR_MSG ++ ("2023-02-27 10:00:00" ++ (". " ++ "denied")), evs) :=
  auth_error_prefix_then_timestamp
    (fun _ => AgentOutcome.raises (PyExc.authenticationError "denied"))
    "p" "2023-02-27 10:00:00" "denied" rfl

/-- C7 counterexample: with the agent behaviour and prompt fixed, two
invocations of `run_chain` that read different clock values produce
different results when the agent raises `AuthenticationError`, because the
error message embeds the current timestamp. -/
theorem run_chain_clock_counterexample :
    run_chain (fun _ => AgentOutcome.raises (PyExc.authenticationError "k"))
        "p" "2023-02-27 10:00:00" ≠
      run_chain (fun _ => AgentOutcome.raises (PyExc.authenticationError "k"))
        "p" "2023-02-27 10:00:01" := by
  intro hcontra
  rw [run_chain_auth_eq _ "p" "2023-02-27 10:00:00" "k" rfl,
    run_chain_auth_eq _ "p" "2023-02-27 10:00:01" "k" rfl] at hcontra
  have hmsg : (AUTH_ERR_MSG ++ "2023-02-27 10:00:00" ++ ". " ++ "k" : String) =
      AUTH_ERR_MSG ++ "2023-02-27 10:00:01" ++ ". " ++ "k" := by
    have hproj := congrArg (fun x => match x with
      | Except.ok p => p.2.1
      | Except.error _ => "") hcontra
    simpa using hproj
  exact absurd hmsg (by decide)

/-- C7 amended: `run_chain` is a pure function of the agent behaviour, the
prompt and the clock reading, so repeated invocations under the same clock
reading agree; moreover for every agent behaviour other than an
`AuthenticationError` the result is independent of the clock, the
timestamp read at `AuthenticationError` handling being the only
time-dependent output. -/
theorem run_chain_deterministic_modulo_clock (chain : String → AgentOutcome)
    (prompt now₁ now₂ : String)
    (h : ∀ s, chain prompt ≠ AgentOutcome.raises (PyExc.authenticationError s)) :
    run_chain chain prompt now₁ = run_chain chain prompt now₂ := by
  cases hc : chain prompt with
  | returns s =>
    rw [run_chain_returns_eq chain prompt now₁ s hc,
      run_chain_returns_eq chain prompt now₂ s hc]
  | raises e =>
    cases e with
    | authenticationError s => exact absurd hc (h s)
    | rateLimitError s =>
      rw [run_chain_rate_eq chain prompt now₁ s hc, run_chain_rate_eq chain prompt now₂ s hc]
    | valueError s =>
      rw [run_chain_value_eq chain prompt now₁ s hc,
        run_chain_value_eq chain prompt now₂ s hc]
    | invalidRequestError s =>
      rw [run_chain_invreq_eq chain prompt now₁ s hc,
        run_chain_invreq_eq chain prompt now₂ s hc]
    | otherException s =>
      rw [run_chain_other_eq chain prompt now₁ s hc,
        run_chain_other_eq chain prompt now₂ s hc]

/-- Witness for the amended C7: a rate-limited agent gives the same result
under two different clock readings. -/
theorem run_chain_deterministic_modulo_clock_witness :
    run_chain (fun _ => AgentOutcome.raises (PyExc.rateLimitError "r")) "p" "t1" =
      run_chain (fun _ => AgentOutcome.raises (PyExc.rateLimitError "r")) "p" "t2" :=
  run_chain_deterministic_modulo_clock
    (fun _ => AgentOutcome.raises (PyExc.rateLimitError "r")) "p" "t1" "t2"
    (fun s hcon => by cases hcon)

/-- C8: with the key present, every exception from the delegated call is
caught: the script run completes normally (an `Except.ok` trace, never an
uncaught exception), and the agent is called exactly once — no retry. -/
theorem errors_caught_no_retry (env : List String) (chain : String → AgentOutcome)
    (now prompt : String) (e : PyExc) (hk : "OPENAI_API_KEY" ∈ env)
    (he : chain prompt = AgentOutcome.raises e) :
    ∃ evs, runScript env chain now prompt = Except.ok evs ∧ agentCallCount evs = 1 := by
  cases e with
  | authenticationError s =>
    exact ⟨_, runScript_eq env chain now prompt hk _ _ _ (run_chain_auth_eq chain prompt now s he),
      by simp [agentCallCount]⟩
  | rateLimitError s =>
    exact ⟨_, runScript_eq env chain now prompt hk _ _ _ (run_chain_rate_eq chain prompt now s he),
      by simp [agentCallCount]⟩
  | valueError s =>
    exact ⟨_, runScript_eq env chain now prompt hk _ _ _ (run_chain_value_eq chain prompt now s he),
      by simp [agentCallCount]⟩
  | invalidRequestError s =>
    exact ⟨_, runScript_eq env chain now prompt hk _ _ _ (run_chain_invreq_eq chain prompt now s he),
      by simp [agentCallCount]⟩
  | otherException s =>
    exact ⟨_, runScript_eq env chain now prompt hk _ _ _ (run_chain_other_eq chain prompt now s he),
      by simp [agentCallCount]⟩

/-- Witness for C8 at a concrete unclassified exception. -/
theorem errors_caught_no_retry_witness :
    ∃ evs, runScript ["OPENAI_API_KEY"]
        (fun _ => AgentOutcome.raises (PyExc.otherException "boom")) "t" "p" = Except.ok evs
      ∧ agentCallCount evs = 1 :=
  errors_caught_no_retry ["OPENAI_API_KEY"]
    (fun _ => AgentOutcome.raises (PyExc.otherException "boom")) "t" "p"
    (PyExc.otherException "boom") (by decide) rfl

/-- C9: at least one of the two strings `run_chain` returns is empty — a
run never produces both a non-empty response and a non-empty error
message. -/
theorem response_error_never_both (chain : String → AgentOutcome)
    (prompt now r em : String) (evs : List Event)
    (h : run_chain chain prompt now = Except.ok (r, em, evs)) :
    r = "" ∨ em = "" := by
  cases hc : chain prompt with
  | returns s =>
    rw [run_chain_returns_eq chain prompt now s hc] at h
    exact Or.inr (congrArg (fun p => p.2.1) (Except.ok.inj h)).symm
  | raises e =>
    cases e with
    | authenticationError s =>
      rw [run_chain_auth_eq chain prompt now s hc] at h
      exact Or.inl (congrArg (fun p => p.1) (Except.ok.inj h)).symm
    | rateLimitError s =>
      rw [run_chain_rate_eq chain prompt now s hc] at h
      exact Or.inl (congrArg (fun p => p.1) (Except.ok.inj h)).symm
    | valueError s =>
      rw [run_chain_value_eq chain prompt now s hc] at h
      exact Or.inl (congrArg (fun p => p.1) (Except.ok.inj h)).symm
    | invalidRequestError s =>
      rw [run_chain_invreq_eq chain prompt now s hc] at h
      exact Or.inl (congrArg (fun p => p.1) (Except.ok.inj h)).symm
    | otherException s =>
      rw [run_chain_other_eq chain prompt now s hc] at h
      exact Or.inl (congrArg (fun p => p.1) (Except.ok.inj h)).symm

/-- Witness for C9 at a concrete successful run. -/
theorem response_error_never_both_witness :
    run_chain (fun _ => AgentOutcome.returns "ok") "p" "t" =
      Except.ok ("ok", "", [Event.agentCall "p"])
    ∧ (("ok" : String) = "" ∨ ("" : String) = "") :=
  ⟨rfl, response_error_never_both (fun _ => AgentOutcome.returns "ok") "p" "t"
    "ok" "" [Event.agentCall "p"] rfl⟩

/-- C10: `run_chain` is total over every agent behaviour — whether the
delegated call returns or raises any modelled exception, some handler
matches (the bare `except Exception` clause at the end catches whatever the
four named clauses miss), so `run_chain` always yields a pair of strings
and never lets an exception propagate. -/
theorem run_chain_total (chain : String → AgentOutcome) (prompt now : String) :
    ∃ r em evs, run_chain chain prompt now = Except.ok (r, em, evs) := by
  cases hc : chain prompt with
  | returns s => exact ⟨s, "", _, run_chain_returns_eq chain prompt now s hc⟩
  | raises e =>
    cases e with
    | authenticationError s => exact ⟨"", _, _, run_chain_auth_eq chain prompt now s hc⟩
    | rateLimitError s => exact ⟨"", _, _, run_chain_rate_eq chain prompt now s hc⟩
    | valueError s => exact ⟨"", _, _, run_chain_value_eq chain prompt now s hc⟩
    | invalidRequestError s => exact ⟨"", _, _, run_chain_invreq_eq chain prompt now s hc⟩
    | otherException s => exact ⟨"", _, _, run_chain_other_eq chain prompt now s hc⟩
